import Mathlib

/-!
Verification of the artifact-caching retrieval layer of the credit-scoring
dashboard (`dashboard.py`).

The dashboard caches remotely rendered images under `./data/tmp/`, derives a
filename from each request's parameters, checks the filesystem before issuing
an HTTP call, and computes a display-size hint for bivariate pairs from the
feature-type lists.

Shallow embedding choices:
- Filenames are represented by the structured type `CacheKey`, one constructor
  per f-string pattern in the source (`gfgi_{n}.png`, `gfli_{id}_{n}.png`,
  `feature_{id}_{idx}.png`, `bivar{i}_{j}.png`).  The four patterns have
  pairwise distinct literal prefixes and decimal numerals contain no
  underscore, so the filename scheme is injective and the structured key is a
  faithful stand-in for the path string.
- The filesystem under `./data/tmp/` is a `Store`: an association list from
  `CacheKey` to `Blob`.  `os.path.exists` is `storeExists`; `open(..., 'wb')`
  followed by `shutil.copyfileobj` is `storeWrite`.  A blob is `complete` when
  the stream was fully drained, `truncated` when the copy was interrupted
  mid-transfer (the bytes written before the interruption remain on disk,
  because `with open` closes but does not delete the file).
- The behaviour of the remote HTTP call is a `StreamOutcome` parameter:
  `ok` (2xx, full body), `serverErr` (non-2xx status; `requests.get` does not
  raise and the source never checks `r.status_code`, so the error body is
  streamed into the file like a success), `connectTimeout` (the timeout fires
  before any byte is written: `requests.get` raises before the file is
  opened), `midTimeout` (the timeout fires during `copyfileobj`, after the
  file was opened and some bytes were written).
- Each operation returns its result, the updated store, and the number of
  remote calls it issued (`Nat`), so that fetch-count properties are statable.
- A Python `ValueError` from `list.index` on an absent feature name is the
  spec taxonomy's `UnknownFeature`.
- The score returned by the remote service is modelled as a rational number;
  the threshold 0.5 is exactly representable, so the `>=` comparison in
  `set_gauge` agrees with the rational comparison.
-/

namespace Dashboard

/-- Error taxonomy of the spec, as surfaced by the embedded operations. -/
inductive DashError where
  | unknownFeature
  | timeout
  | serverError
  | invalidParameter
deriving DecidableEq

/-- Structured stand-ins for the cache filenames built by the source under
`./data/tmp/`: `gfgi n` is `gfgi_{n}.png` (line 105), `gfli id n` is
`gfli_{id}_{n}.png` (line 125), `feature id idx` is `feature_{id}_{idx}.png`
(line 148), `bivar i j` is `bivar{i}_{j}.png` (lines 173-174). -/
inductive CacheKey where
  | gfgi (max_feat : Nat)
  | gfli (client_id max_feat : Nat)
  | feature (client_id f_idx : Nat)
  | bivar (f1_idx f2_idx : Nat)
deriving DecidableEq

/-- A file on disk: fully written, or left incomplete by an interrupted copy. -/
inductive Blob where
  | complete (data : List Nat)
  | truncated (data : List Nat)
deriving DecidableEq

/-- The scratch directory `./data/tmp/` as a key-to-blob association list. -/
abbrev Store := List (CacheKey × Blob)

/-- `os.path.exists` on the path of `k`: true also for an incomplete file. -/
def storeExists (s : Store) (k : CacheKey) : Bool :=
  s.any (fun e => decide (e.1 = k))

/-- `open(path, 'wb')` + copy: (over)writes the blob stored under `k`. -/
def storeWrite (s : Store) (k : CacheKey) (b : Blob) : Store :=
  (k, b) :: s.filter (fun e => decide (e.1 ≠ k))

/-- Behaviour of one remote stream request, a parameter of the embedding. -/
inductive StreamOutcome where
  | ok (data : List Nat)
  | serverErr (body : List Nat)
  | connectTimeout
  | midTimeout (data : List Nat)
deriving DecidableEq

/-- The shared miss-then-fetch pattern of `graph_features_global_impact`
(lines 105-112), `graph_features_local_impact` (lines 125-132) and
`graph_feature` (lines 148-155): if the file exists return its path, else
issue the request and stream the body into the file.  On `connectTimeout`
the exception fires before the file is opened; on `midTimeout` the exception
fires during the copy and the bytes already written stay on disk; a non-2xx
status is not detected (no `raise_for_status`), so its body is stored. -/
def streamToFile (store : Store) (key : CacheKey) (o : StreamOutcome) :
    Except DashError CacheKey × Store × Nat :=
  if storeExists store key then (Except.ok key, store, 0)
  else
    match o with
    | .ok d => (Except.ok key, storeWrite store key (.complete d), 1)
    | .serverErr body => (Except.ok key, storeWrite store key (.complete body), 1)
    | .connectTimeout => (Except.error .timeout, store, 1)
    | .midTimeout d => (Except.error .timeout, storeWrite store key (.truncated d), 1)

/-- `graph_features_global_impact(max_feat)`, lines 96-112.  Note: the
source performs no range check on `max_feat`; the 5-30 bound exists only in
the UI slider (line 224). -/
def graph_features_global_impact (store : Store) (max_feat : Nat)
    (o : StreamOutcome) : Except DashError CacheKey × Store × Nat :=
  streamToFile store (CacheKey.gfgi max_feat) o

/-- `graph_features_local_impact(client_id, max_feat)`, lines 115-132. -/
def graph_features_local_impact (store : Store) (client_id max_feat : Nat)
    (o : StreamOutcome) : Except DashError CacheKey × Store × Nat :=
  streamToFile store (CacheKey.gfli client_id max_feat) o

/-- The feature lists fetched once at startup by `get_feature_lists`
(lines 32-47): `all` = `features_list`, `cat` = `cat_col`, `num` = `num_col`. -/
structure Catalog where
  all : List String
  cat : List String
  num : List String

/-- Python `list.index`: position of the first occurrence, `none` when the
element is absent (where Python raises `ValueError`). -/
def pyIndex (l : List String) (x : String) : Option Nat :=
  match l with
  | [] => none
  | y :: ys => if y = x then some 0 else (pyIndex ys x).map (· + 1)

/-- `graph_feature(client_id, feature)`, lines 135-155: `features_list.index`
runs first (line 147), so an unknown feature fails before any request. -/
def graph_feature (c : Catalog) (store : Store) (client_id : Nat)
    (feature : String) (o : StreamOutcome) :
    Except DashError CacheKey × Store × Nat :=
  match pyIndex c.all feature with
  | none => (Except.error .unknownFeature, store, 0)
  | some f_idx => streamToFile store (CacheKey.feature client_id f_idx) o

/-- The size hint of `bivar`, lines 186-188: `large` when one feature is in
`cat_col` and the other in `num_col`, `normal` otherwise. -/
def img_size (c : Catalog) (feature_1 feature_2 : String) : String :=
  if (feature_1 ∈ c.cat ∧ feature_2 ∈ c.num) ∨
      (feature_1 ∈ c.num ∧ feature_2 ∈ c.cat)
  then "large" else "normal"

/-- `bivar(feature_1, feature_2)`, lines 158-189: resolve both feature
indices (line 171-172, `ValueError` on an unknown name, `feature_1` first),
probe the as-given-order file `bivar{i1}_{i2}.png`, then the reverse-order
file `bivar{i2}_{i1}.png`; only if neither exists, fetch with a 60s timeout
and write under the as-given-order name; finally attach the size hint. -/
def bivar (c : Catalog) (store : Store) (feature_1 feature_2 : String)
    (o : StreamOutcome) :
    Except DashError (CacheKey × String) × Store × Nat :=
  match pyIndex c.all feature_1 with
  | none => (Except.error .unknownFeature, store, 0)
  | some f1_idx =>
    match pyIndex c.all feature_2 with
    | none => (Except.error .unknownFeature, store, 0)
    | some f2_idx =>
      let key_1 := CacheKey.bivar f1_idx f2_idx
      let key_2 := CacheKey.bivar f2_idx f1_idx
      if storeExists store key_1 then
        (Except.ok (key_1, img_size c feature_1 feature_2), store, 0)
      else if storeExists store key_2 then
        (Except.ok (key_2, img_size c feature_1 feature_2), store, 0)
      else
        match o with
        | .ok d =>
            (Except.ok (key_1, img_size c feature_1 feature_2),
             storeWrite store key_1 (.complete d), 1)
        | .serverErr body =>
            (Except.ok (key_1, img_size c feature_1 feature_2),
             storeWrite store key_1 (.complete body), 1)
        | .connectTimeout => (Except.error .timeout, store, 1)
        | .midTimeout d =>
            (Except.error .timeout, storeWrite store key_1 (.truncated d), 1)

/-- The gauge figure of `set_gauge`, lines 68-93 (the fields the claims are
about: the indicator value and the title text). -/
structure GaugeFig where
  value : ℚ
  title : String

/-- `set_gauge(client_id)` figure construction, lines 75-93: the score comes
from `GET /{client_id}` and the title is chosen by `score >= 0.5` (line 77). -/
def set_gauge (score : ℚ) : GaugeFig :=
  { value := score
    title := if (1 : ℚ)/2 ≤ score then "Crédit non accepté" else "Crédit accepté" }

/-- `set_gauge` as a store-passing operation: the function body (lines 68-93)
contains no filesystem access at all, so the store passes through untouched,
and it issues exactly one remote call (`GET /{client_id}`, line 75). -/
def run_set_gauge (store : Store) (score : ℚ) : GaugeFig × Store × Nat :=
  (set_gauge score, store, 1)

/-- The global request timeout, line 13. -/
def timeout : Nat := 30

/-- The `timeout` keyword argument passed at each `requests.get` call site in
the source, by endpoint: `/clients_list` line 25, `/feature_lists` line 41,
`/{client_id}/feature_selection` line 63, `/{client_id}` line 75 (no timeout
argument at all, hence `none`), `/global_impact` line 108,
`/{client_id}/local_impact` line 128, `/{client_id}/feature` line 151,
`/graph_bivar` line 182 (literal 60). -/
def callSiteTimeouts : List (String × Option Nat) :=
  [("/clients_list", some timeout),
   ("/feature_lists", some timeout),
   ("/{client_id}/feature_selection", some timeout),
   ("/{client_id}", none),
   ("/global_impact", some timeout),
   ("/{client_id}/local_impact", some timeout),
   ("/{client_id}/feature", some timeout),
   ("/graph_bivar", some 60)]

/-- A concrete two-feature catalog used to instantiate theorems. -/
def exCatalog : Catalog :=
  { all := ["EDUCATION", "AGE"], cat := ["EDUCATION"], num := ["AGE"] }

/-- A key just written is reported present. -/
theorem storeExists_storeWrite_self (s : Store) (k : CacheKey) (b : Blob) :
    storeExists (storeWrite s k b) k = true := by
  simp [storeExists, storeWrite]

/-- Filtering out the entries keyed `k` does not change presence of `k' ≠ k`. -/
theorem any_filter_ne (t : Store) (k k' : CacheKey) (h : k' ≠ k) :
    (t.filter fun e => decide (e.1 ≠ k)).any (fun e => decide (e.1 = k'))
      = t.any (fun e => decide (e.1 = k')) := by
  induction t with
  | nil => rfl
  | cons e t ih =>
      by_cases he : e.1 = k
      · have hne : ¬ e.1 = k' := by rw [he]; exact fun hh => h hh.symm
        rw [List.filter_cons, if_neg (by simpa using he), ih, List.any_cons]
        simp [hne]
      · rw [List.filter_cons, if_pos (by simpa using he), List.any_cons,
          List.any_cons, ih]

/-- Writing under `k` does not change presence of a different key `k'`. -/
theorem storeExists_storeWrite_ne (s : Store) (k k' : CacheKey) (b : Blob)
    (h : k' ≠ k) :
    storeExists (storeWrite s k b) k' = storeExists s k' := by
  unfold storeExists storeWrite
  rw [List.any_cons, any_filter_ne s k k' h]
  simp [Ne.symm h]

/-- An absent key survives the overwrite filter untouched. -/
theorem filter_ne_of_absent (s : Store) (k : CacheKey) :
    storeExists s k = false → s.filter (fun e => decide (e.1 ≠ k)) = s := by
  induction s with
  | nil => intro _; rfl
  | cons e t ih =>
      intro h
      simp only [storeExists, List.any_cons, Bool.or_eq_false_iff] at h
      have he : ¬ e.1 = k := by simpa using h.1
      rw [List.filter_cons, if_pos (by simpa using he), ih h.2]

/-- Writing under an absent key adds exactly one entry to the store. -/
theorem storeWrite_length_of_absent (s : Store) (k : CacheKey) (b : Blob)
    (h : storeExists s k = false) :
    (storeWrite s k b).length = s.length + 1 := by
  unfold storeWrite
  rw [List.length_cons, filter_ne_of_absent s k h]

/-- `pyIndex` returns the position of an occurrence of the element. -/
theorem pyIndex_get? (l : List String) (x : String) (i : Nat)
    (h : pyIndex l x = some i) : l.get? i = some x := by
  induction l generalizing i with
  | nil => simp [pyIndex] at h
  | cons y ys ih =>
      by_cases hy : y = x
      · simp only [pyIndex, if_pos hy] at h
        cases h
        simp [hy]
      · simp only [pyIndex, if_neg hy] at h
        cases hp : pyIndex ys x with
        | none =>
            rw [hp] at h
            have h2 : (none : Option Nat) = some i := h
            cases h2
        | some j =>
            rw [hp] at h
            have h2 : some (j + 1) = some i := h
            cases h2
            simpa using ih j hp


/-- Distinct feature names occupy distinct positions in the catalog. -/
theorem pyIndex_inj (l : List String) (a b : String) (i j : Nat)
    (ha : pyIndex l a = some i) (hb : pyIndex l b = some j) (hab : a ≠ b) :
    i ≠ j := by
  intro hij
  subst hij
  have h1 := pyIndex_get? l a i ha
  have h2 := pyIndex_get? l b i hb
  rw [h1] at h2
  exact hab (Option.some.inj h2)

/-- An absent feature name has no index (Python raises `ValueError`). -/
theorem pyIndex_eq_none (l : List String) (x : String) (h : x ∉ l) :
    pyIndex l x = none := by
  induction l with
  | nil => rfl
  | cons y ys ih =>
      simp only [List.mem_cons, not_or] at h
      have hy : ¬ y = x := fun hh => h.1 hh.symm
      simp [pyIndex, hy, ih h.2]

/-- Cold fetch through the shared pattern: absent key, successful stream. -/
theorem streamToFile_cold (store : Store) (k : CacheKey) (d : List Nat)
    (h : storeExists store k = false) :
    streamToFile store k (.ok d)
      = (Except.ok k, storeWrite store k (.complete d), 1) := by
  simp [streamToFile, h]

/-- Warm hit through the shared pattern: present key, no remote call. -/
theorem streamToFile_warm (store : Store) (k : CacheKey) (o : StreamOutcome)
    (h : storeExists store k = true) :
    streamToFile store k o = (Except.ok k, store, 0) := by
  simp [streamToFile, h]

/-- The spec wording of the size-hint condition: exactly one of the two
features is in the categorical set and the other is in the numeric set. -/
def exactlyOneMixed (c : Catalog) (a b : String) : Prop :=
  (a ∈ c.cat ∧ b ∉ c.cat ∧ b ∈ c.num) ∨ (b ∈ c.cat ∧ a ∉ c.cat ∧ a ∈ c.num)

/-- C3: the claim says a stream-endpoint timeout, including one mid-transfer,
leaves no file at the target key, the store reporting the key absent.  The
code does not satisfy this: on a timeout during `shutil.copyfileobj` the file
was already opened, so the bytes written so far (possibly zero) remain at the
cache path and `os.path.exists` reports the key present — here evaluated on a
global-impact request against an empty store that times out mid-transfer
after zero bytes. -/
theorem midtransfer_timeout_leaves_blob :
    graph_features_global_impact [] 5 (.midTimeout [])
      = (Except.error DashError.timeout,
         [(CacheKey.gfgi 5, Blob.truncated [])], 1) ∧
    storeExists [(CacheKey.gfgi 5, Blob.truncated [])] (CacheKey.gfgi 5)
      = true := by
  exact ⟨rfl, rfl⟩

/-- C7: the claim says every remote call passes a bounded timeout (30 by
default, 60 for the bivariate stream).  The code contradicts it at exactly
one call site: the score request `GET /{client_id}` in `set_gauge` (line 75)
passes no timeout argument at all, while every other call site passes the
global 30 and the bivariate stream passes 60. -/
theorem score_call_unbounded_timeout :
    callSiteTimeouts.lookup "/{client_id}" = some none ∧
    callSiteTimeouts.lookup "/graph_bivar" = some (some 60) ∧
    (callSiteTimeouts.all fun e =>
        e.1 == "/{client_id}" || e.1 == "/graph_bivar"
          || e.2 == some timeout) = true := by
  exact ⟨rfl, rfl, rfl⟩

/-- C8: the gauge operation always performs one live remote score call and
leaves the artifact store unchanged; its figure does not depend on the store,
so repeated gauge requests are never served from disk. -/
theorem gauge_bypasses_store (store store2 : Store) (score : ℚ) :
    (run_set_gauge store score).2.1 = store ∧
    (run_set_gauge store score).2.2 = 1 ∧
    (run_set_gauge store score).1 = (run_set_gauge store2 score).1 :=
  ⟨rfl, rfl, rfl⟩

/-- C9: the `img_size` tag computed by `bivar` (lines 186-188) is symmetric
in the two feature names. -/
theorem img_size_symm (c : Catalog) (a b : String) :
    img_size c a b = img_size c b a := by
  have hiff : ((a ∈ c.cat ∧ b ∈ c.num) ∨ (a ∈ c.num ∧ b ∈ c.cat)) ↔
      ((b ∈ c.cat ∧ a ∈ c.num) ∨ (b ∈ c.num ∧ a ∈ c.cat)) := by
    constructor
    · rintro (⟨hx, hy⟩ | ⟨hx, hy⟩)
      · exact Or.inr ⟨hy, hx⟩
      · exact Or.inl ⟨hy, hx⟩
    · rintro (⟨hx, hy⟩ | ⟨hx, hy⟩)
      · exact Or.inr ⟨hy, hx⟩
      · exact Or.inl ⟨hy, hx⟩
  unfold img_size
  by_cases h : (a ∈ c.cat ∧ b ∈ c.num) ∨ (a ∈ c.num ∧ b ∈ c.cat)
  · rw [if_pos h, if_pos (hiff.mp h)]
  · rw [if_neg h, if_neg (fun hh => h (hiff.mpr hh))]

/-- C10: the gauge title is the French for credit denied exactly when the
remote score is at least one half, and the French for credit granted
otherwise (line 77 of the source). -/
theorem gauge_title_threshold (score : ℚ) :
    ((set_gauge score).title = "Crédit non accepté" ↔ (1 : ℚ)/2 ≤ score) ∧
    ((set_gauge score).title = "Crédit accepté" ↔ ¬ (1 : ℚ)/2 ≤ score) := by
  have hs : ("Crédit non accepté" : String) ≠ "Crédit accepté" := by decide
  have hs2 : ("Crédit accepté" : String) ≠ "Crédit non accepté" :=
    fun hh => hs hh.symm
  have ht : (set_gauge score).title
      = if (1 : ℚ)/2 ≤ score then "Crédit non accepté" else "Crédit accepté" :=
    rfl
  by_cases h : (1 : ℚ)/2 ≤ score
  · rw [ht, if_pos h]
    exact ⟨⟨fun _ => h, fun _ => rfl⟩,
      ⟨fun heq => absurd heq hs, fun hn => absurd h hn⟩⟩
  · rw [ht, if_neg h]
    exact ⟨⟨fun heq => absurd heq hs2, fun hle => absurd hle h⟩,
      ⟨fun _ => h, fun _ => rfl⟩⟩

/-- C6 counterexample: the claim says `GlobalImpact{max_features=3}` fails with
`InvalidParameter` before any fetch; evaluated on an empty store, the code
instead succeeds and performs one remote fetch, caching `gfgi_3.png`. -/
theorem global_impact_no_bound_check_cex :
    graph_features_global_impact [] 3 (.ok [0])
      = (Except.ok (CacheKey.gfgi 3),
         [(CacheKey.gfgi 3, Blob.complete [0])], 1) := rfl

/-- C6 as amended: `graph_features_global_impact` performs no range check on
`max_feat`: for any value (including 3, below the UI slider minimum 5) it
never fails with `InvalidParameter`, and on an absent key it issues the
remote fetch regardless; the 5-30 bound is enforced only by the slider
widget (line 224), not by the fetch operation. -/
theorem global_impact_no_validation (store : Store) (n : Nat)
    (o : StreamOutcome)
    (h : storeExists store (CacheKey.gfgi n) = false) :
    (graph_features_global_impact store n o).1
      ≠ Except.error DashError.invalidParameter ∧
    (graph_features_global_impact store n o).2.2 = 1 := by
  unfold graph_features_global_impact streamToFile
  rw [h]
  cases o <;> simp

/-- C6 witness: the amended theorem evaluated at `max_feat = 3` on the empty
store with a successful stream. -/
theorem global_impact_no_validation_witness :
    storeExists [] (CacheKey.gfgi 3) = false ∧
    ((graph_features_global_impact [] 3 (.ok [0])).1
        ≠ Except.error DashError.invalidParameter ∧
     (graph_features_global_impact [] 3 (.ok [0])).2.2 = 1) :=
  ⟨rfl, global_impact_no_validation [] 3 (.ok [0]) rfl⟩

/-- C4: a single-feature or bivariate request naming a feature absent from
the catalog's ordered list fails with `UnknownFeature` (Python `ValueError`
from `list.index`, lines 147 and 171-172) with zero remote calls: the
failure happens before any request is issued. -/
theorem unknown_feature_rejection (c : Catalog) (store : Store) (cid : Nat)
    (f f1 f2 : String) (o o2 : StreamOutcome)
    (hf : f ∉ c.all) (h12 : f1 ∉ c.all ∨ f2 ∉ c.all) :
    graph_feature c store cid f o
      = (Except.error DashError.unknownFeature, store, 0) ∧
    bivar c store f1 f2 o2
      = (Except.error DashError.unknownFeature, store, 0) := by
  constructor
  · unfold graph_feature
    rw [pyIndex_eq_none c.all f hf]
  · rcases h12 with h | h
    · unfold bivar
      rw [pyIndex_eq_none c.all f1 h]
    · unfold bivar
      cases hp : pyIndex c.all f1 with
      | none => rfl
      | some i => rw [pyIndex_eq_none c.all f2 h]

/-- C4 witness: the name NOT_A_FEATURE is absent from the concrete catalog,
and both operations reject it with `UnknownFeature` and zero remote calls. -/
theorem unknown_feature_rejection_witness :
    ("NOT_A_FEATURE" ∉ exCatalog.all) ∧
    (graph_feature exCatalog [] 100001 "NOT_A_FEATURE" (.ok [])
        = (Except.error DashError.unknownFeature, [], 0) ∧
     bivar exCatalog [] "NOT_A_FEATURE" "AGE" (.ok [])
        = (Except.error DashError.unknownFeature, [], 0)) :=
  ⟨by decide,
   unknown_feature_rejection exCatalog [] 100001 "NOT_A_FEATURE"
     "NOT_A_FEATURE" "AGE" (.ok []) (.ok []) (by decide) (Or.inl (by decide))⟩

/-- C5: under the catalog invariant that the categorical and numeric sets are
disjoint, the size hint is large exactly when one feature is in the
categorical set and the other in the numeric set, and normal in every other
case (both categorical, both numeric, or either in neither set). -/
theorem bivariate_layout_hint_correct (c : Catalog) (a b : String)
    (hdisj : ∀ x ∈ c.cat, x ∉ c.num) :
    (img_size c a b = "large" ↔ exactlyOneMixed c a b) ∧
    (img_size c a b = "normal" ↔ ¬ exactlyOneMixed c a b) := by
  have key : ((a ∈ c.cat ∧ b ∈ c.num) ∨ (a ∈ c.num ∧ b ∈ c.cat))
      ↔ exactlyOneMixed c a b := by
    constructor
    · rintro (⟨hx, hy⟩ | ⟨hx, hy⟩)
      · exact Or.inl ⟨hx, fun hbc => hdisj b hbc hy, hy⟩
      · exact Or.inr ⟨hy, fun hac => hdisj a hac hx, hx⟩
    · rintro (⟨hx, _, hy⟩ | ⟨hx, _, hy⟩)
      · exact Or.inl ⟨hx, hy⟩
      · exact Or.inr ⟨hy, hx⟩
  have hln : ("large" : String) ≠ "normal" := by decide
  have hnl : ("normal" : String) ≠ "large" := fun hh => hln hh.symm
  unfold img_size
  by_cases h : (a ∈ c.cat ∧ b ∈ c.num) ∨ (a ∈ c.num ∧ b ∈ c.cat)
  · rw [if_pos h]
    exact ⟨⟨fun _ => key.mp h, fun _ => rfl⟩,
      ⟨fun heq => absurd heq hln, fun hn => absurd (key.mp h) hn⟩⟩
  · rw [if_neg h]
    exact ⟨⟨fun heq => absurd heq hnl, fun hm => absurd (key.mpr hm) h⟩,
      ⟨fun _ => fun hm => h (key.mpr hm), fun _ => rfl⟩⟩

/-- C5 witness: the concrete catalog with one categorical and one numeric
feature satisfies the disjointness invariant, and the hint for the mixed
pair is characterized as claimed. -/
theorem bivariate_layout_hint_correct_witness :
    (img_size exCatalog "EDUCATION" "AGE" = "large"
        ↔ exactlyOneMixed exCatalog "EDUCATION" "AGE") ∧
    (img_size exCatalog "EDUCATION" "AGE" = "normal"
        ↔ ¬ exactlyOneMixed exCatalog "EDUCATION" "AGE") :=
  bivariate_layout_hint_correct exCatalog "EDUCATION" "AGE" (by decide)

/-- C1: for a valid pair of distinct features, requesting the bivariate
artifact as `(a,b)` and then as `(b,a)` issues exactly one remote call
(1 then 0) and stores exactly one blob, under the as-given-order key of the
first request; the second request is served from the reverse-order probe and
returns that historical key without re-keying (the store is unchanged and
nothing appears under the reversed key); whenever the as-given-order key is
present it is probed first and returned, as a repeat `(a,b)` request shows. -/
theorem bivar_symmetry_collapse (c : Catalog) (store : Store) (a b : String)
    (i1 i2 : Nat) (d : List Nat) (o2 o3 : StreamOutcome)
    (hab : a ≠ b)
    (ha : pyIndex c.all a = some i1) (hb : pyIndex c.all b = some i2)
    (h1 : storeExists store (CacheKey.bivar i1 i2) = false)
    (h2 : storeExists store (CacheKey.bivar i2 i1) = false) :
    bivar c store a b (.ok d)
      = (Except.ok (CacheKey.bivar i1 i2, img_size c a b),
         storeWrite store (CacheKey.bivar i1 i2) (Blob.complete d), 1) ∧
    bivar c (storeWrite store (CacheKey.bivar i1 i2) (Blob.complete d)) b a o2
      = (Except.ok (CacheKey.bivar i1 i2, img_size c b a),
         storeWrite store (CacheKey.bivar i1 i2) (Blob.complete d), 0) ∧
    (storeWrite store (CacheKey.bivar i1 i2) (Blob.complete d)).length
      = store.length + 1 ∧
    storeExists (storeWrite store (CacheKey.bivar i1 i2) (Blob.complete d))
      (CacheKey.bivar i2 i1) = false ∧
    bivar c (storeWrite store (CacheKey.bivar i1 i2) (Blob.complete d)) a b o3
      = (Except.ok (CacheKey.bivar i1 i2, img_size c a b),
         storeWrite store (CacheKey.bivar i1 i2) (Blob.complete d), 0) := by
  have hne : i1 ≠ i2 := pyIndex_inj c.all a b i1 i2 ha hb hab
  have hkne : CacheKey.bivar i2 i1 ≠ CacheKey.bivar i1 i2 := by
    intro hh
    injection hh with u v
    exact hne u.symm
  have hw2 : storeExists
      (storeWrite store (CacheKey.bivar i1 i2) (Blob.complete d))
      (CacheKey.bivar i2 i1) = false := by
    rw [storeExists_storeWrite_ne _ _ _ _ hkne]
    exact h2
  refine ⟨?_, ?_, ?_, hw2, ?_⟩
  · simp [bivar, ha, hb, h1, h2]
  · simp [bivar, ha, hb, hw2, storeExists_storeWrite_self]
  · exact storeWrite_length_of_absent store _ _ h1
  · simp [bivar, ha, hb, storeExists_storeWrite_self]

/-- C1 witness: the scenario at the concrete catalog, pair (EDUCATION, AGE),
empty store, zero-byte image; the later requests are given timeout outcomes
to show their results do not depend on the remote at all. -/
theorem bivar_symmetry_collapse_witness :
    bivar exCatalog [] "EDUCATION" "AGE" (.ok [])
      = (Except.ok (CacheKey.bivar 0 1, img_size exCatalog "EDUCATION" "AGE"),
         storeWrite [] (CacheKey.bivar 0 1) (Blob.complete []), 1) ∧
    bivar exCatalog (storeWrite [] (CacheKey.bivar 0 1) (Blob.complete []))
        "AGE" "EDUCATION" .connectTimeout
      = (Except.ok (CacheKey.bivar 0 1, img_size exCatalog "AGE" "EDUCATION"),
         storeWrite [] (CacheKey.bivar 0 1) (Blob.complete []), 0) ∧
    (storeWrite [] (CacheKey.bivar 0 1) (Blob.complete [])).length
      = List.length ([] : Store) + 1 ∧
    storeExists (storeWrite [] (CacheKey.bivar 0 1) (Blob.complete []))
      (CacheKey.bivar 1 0) = false ∧
    bivar exCatalog (storeWrite [] (CacheKey.bivar 0 1) (Blob.complete []))
        "EDUCATION" "AGE" .connectTimeout
      = (Except.ok (CacheKey.bivar 0 1, img_size exCatalog "EDUCATION" "AGE"),
         storeWrite [] (CacheKey.bivar 0 1) (Blob.complete []), 0) :=
  bivar_symmetry_collapse exCatalog [] "EDUCATION" "AGE" 0 1 []
    .connectTimeout .connectTimeout (by decide) (by decide) (by decide) rfl rfl

/-- C2: each fetch operation (global impact, local impact, single feature,
bivariate), called twice in sequence with identical parameters from a store
where the key is absent and a successful stream, issues exactly one remote
call: the first call fetches and writes the blob, the second finds the key
present and returns the same handle with zero remote calls, whatever the
remote would do. -/
theorem at_most_one_fetch_sequential :
    (∀ (store : Store) (n : Nat) (d : List Nat) (o2 : StreamOutcome),
      storeExists store (CacheKey.gfgi n) = false →
      graph_features_global_impact store n (.ok d)
        = (Except.ok (CacheKey.gfgi n),
           storeWrite store (CacheKey.gfgi n) (Blob.complete d), 1) ∧
      graph_features_global_impact
          (storeWrite store (CacheKey.gfgi n) (Blob.complete d)) n o2
        = (Except.ok (CacheKey.gfgi n),
           storeWrite store (CacheKey.gfgi n) (Blob.complete d), 0)) ∧
    (∀ (store : Store) (cid n : Nat) (d : List Nat) (o2 : StreamOutcome),
      storeExists store (CacheKey.gfli cid n) = false →
      graph_features_local_impact store cid n (.ok d)
        = (Except.ok (CacheKey.gfli cid n),
           storeWrite store (CacheKey.gfli cid n) (Blob.complete d), 1) ∧
      graph_features_local_impact
          (storeWrite store (CacheKey.gfli cid n) (Blob.complete d)) cid n o2
        = (Except.ok (CacheKey.gfli cid n),
           storeWrite store (CacheKey.gfli cid n) (Blob.complete d), 0)) ∧
    (∀ (c : Catalog) (store : Store) (cid : Nat) (f : String) (i : Nat)
        (d : List Nat) (o2 : StreamOutcome),
      pyIndex c.all f = some i →
      storeExists store (CacheKey.feature cid i) = false →
      graph_feature c store cid f (.ok d)
        = (Except.ok (CacheKey.feature cid i),
           storeWrite store (CacheKey.feature cid i) (Blob.complete d), 1) ∧
      graph_feature c
          (storeWrite store (CacheKey.feature cid i) (Blob.complete d))
          cid f o2
        = (Except.ok (CacheKey.feature cid i),
           storeWrite store (CacheKey.feature cid i) (Blob.complete d), 0)) ∧
    (∀ (c : Catalog) (store : Store) (a b : String) (i1 i2 : Nat)
        (d : List Nat) (o2 : StreamOutcome),
      pyIndex c.all a = some i1 → pyIndex c.all b = some i2 →
      storeExists store (CacheKey.bivar i1 i2) = false →
      storeExists store (CacheKey.bivar i2 i1) = false →
      bivar c store a b (.ok d)
        = (Except.ok (CacheKey.bivar i1 i2, img_size c a b),
           storeWrite store (CacheKey.bivar i1 i2) (Blob.complete d), 1) ∧
      bivar c (storeWrite store (CacheKey.bivar i1 i2) (Blob.complete d))
          a b o2
        = (Except.ok (CacheKey.bivar i1 i2, img_size c a b),
           storeWrite store (CacheKey.bivar i1 i2) (Blob.complete d), 0)) := by
  refine ⟨?_, ?_, ?_, ?_⟩
  · intro store n d o2 h
    exact ⟨streamToFile_cold store _ d h,
      streamToFile_warm _ _ o2 (storeExists_storeWrite_self store _ _)⟩
  · intro store cid n d o2 h
    exact ⟨streamToFile_cold store _ d h,
      streamToFile_warm _ _ o2 (storeExists_storeWrite_self store _ _)⟩
  · intro c store cid f i d o2 hi h
    constructor
    · unfold graph_feature
      rw [hi]
      exact streamToFile_cold store _ d h
    · unfold graph_feature
      rw [hi]
      exact streamToFile_warm _ _ o2 (storeExists_storeWrite_self store _ _)
  · intro c store a b i1 i2 d o2 ha hb h1 h2
    constructor
    · simp [bivar, ha, hb, h1, h2]
    · simp [bivar, ha, hb, storeExists_storeWrite_self]

/-- C2 witness: each of the four operations exercised on its cold-then-warm
scenario at concrete parameters; the second call is handed a timeout outcome
to show it does not contact the remote. -/
theorem at_most_one_fetch_sequential_witness :
    (graph_features_global_impact [] 20 (.ok [1])
        = (Except.ok (CacheKey.gfgi 20),
           storeWrite [] (CacheKey.gfgi 20) (Blob.complete [1]), 1) ∧
     graph_features_global_impact
        (storeWrite [] (CacheKey.gfgi 20) (Blob.complete [1])) 20
        .connectTimeout
        = (Except.ok (CacheKey.gfgi 20),
           storeWrite [] (CacheKey.gfgi 20) (Blob.complete [1]), 0)) ∧
    (graph_features_local_impact [] 100001 16 (.ok [2])
        = (Except.ok (CacheKey.gfli 100001 16),
           storeWrite [] (CacheKey.gfli 100001 16) (Blob.complete [2]), 1) ∧
     graph_features_local_impact
        (storeWrite [] (CacheKey.gfli 100001 16) (Blob.complete [2]))
        100001 16 .connectTimeout
        = (Except.ok (CacheKey.gfli 100001 16),
           storeWrite [] (CacheKey.gfli 100001 16) (Blob.complete [2]), 0)) ∧
    (graph_feature exCatalog [] 100001 "AGE" (.ok [3])
        = (Except.ok (CacheKey.feature 100001 1),
           storeWrite [] (CacheKey.feature 100001 1) (Blob.complete [3]), 1) ∧
     graph_feature exCatalog
        (storeWrite [] (CacheKey.feature 100001 1) (Blob.complete [3]))
        100001 "AGE" .connectTimeout
        = (Except.ok (CacheKey.feature 100001 1),
           storeWrite [] (CacheKey.feature 100001 1) (Blob.complete [3]), 0)) ∧
    (bivar exCatalog [] "EDUCATION" "AGE" (.ok [4])
        = (Except.ok (CacheKey.bivar 0 1, img_size exCatalog "EDUCATION" "AGE"),
           storeWrite [] (CacheKey.bivar 0 1) (Blob.complete [4]), 1) ∧
     bivar exCatalog (storeWrite [] (CacheKey.bivar 0 1) (Blob.complete [4]))
        "EDUCATION" "AGE" .connectTimeout
        = (Except.ok (CacheKey.bivar 0 1, img_size exCatalog "EDUCATION" "AGE"),
           storeWrite [] (CacheKey.bivar 0 1) (Blob.complete [4]), 0)) :=
  ⟨at_most_one_fetch_sequential.1 [] 20 [1] .connectTimeout rfl,
   at_most_one_fetch_sequential.2.1 [] 100001 16 [2] .connectTimeout rfl,
   at_most_one_fetch_sequential.2.2.1 exCatalog [] 100001 "AGE" 1 [3]
     .connectTimeout (by decide) rfl,
   at_most_one_fetch_sequential.2.2.2 exCatalog [] "EDUCATION" "AGE" 0 1 [4]
     .connectTimeout (by decide) (by decide) rfl rfl⟩

end Dashboard
